import Mathlib

/-!
Shallow embedding of the Remote Browser Session Engine
(`src/app.py` and `src/request_listen.py`): the signaling handshake
(offer validation, ICE candidate filtering), the input translator
(mouse state machine, keyboard dispatch, navigation), the polling
frame loop with change detection, and the media-track capture loop.
-/

namespace RemoteBrowser

/-- JSON values, as produced by `json.loads` on the signaling channel. -/
inductive Json where
  | null
  | str (s : String)
  | num (n : Int)
  | bool (b : Bool)
  | arr (xs : List Json)
  | obj (fields : List (String × Json))

/-- `src/request_listen.py` lines 123-126: the strict offer validation in
`websocket_offer`.  Rejects (raises `ValueError`, fatal to the connection)
unless the payload is a dict containing keys `sdp` and `type`, with
`offer["sdp"] is not None` and `offer["type"] == "offer"`. -/
def validate_offer (offer : Json) : Except String Unit :=
  match offer with
  | Json.obj fields =>
    match fields.lookup "sdp", fields.lookup "type" with
    | some Json.null, some _ => Except.error "invalid offer data"
    | some _, some (Json.str t) =>
        if t = "offer" then Except.ok () else Except.error "invalid offer data"
    | some _, some _ => Except.error "invalid offer data"
    | _, _ => Except.error "invalid offer format"
  | _ => Except.error "invalid offer format"

/-- Arguments passed to `RTCIceCandidate(...)` / `pc.addIceCandidate` for an
accepted candidate: the `candidate` and `sdpMid` values and the optional
`sdpMLineIndex` (`candidate_data.get("sdpMLineIndex")`). -/
structure CandidateInit where
  candidate : Json
  sdpMid : Json
  sdpMLineIndex : Option Json

/-- `src/request_listen.py` lines 163-187: one iteration of the post-answer
message loop, applied to a parsed dict message.  Returns the accumulated list
of candidates added to the peer connection and whether the loop continues
(`true` on every validation path: malformed candidates hit `continue`).
The null check precedes the dict check, as in the source. -/
def handle_candidate_message (added : List CandidateInit)
    (fields : List (String × Json)) : List CandidateInit × Bool :=
  match fields.lookup "candidate" with
  | none => (added, true)
  | some candidate_data =>
    match candidate_data with
    | Json.null => (added, true)
    | Json.obj cfields =>
      match cfields.lookup "candidate", cfields.lookup "sdpMid" with
      | some c, some m =>
          (added ++ [⟨c, m, cfields.lookup "sdpMLineIndex"⟩], true)
      | _, _ => (added, true)
    | _ => (added, true)

/-- The `eventType` field of a client mouse message (`src/app.py`). -/
inductive MouseEventType where
  | mousedown
  | mouseup
  | dblclick
  | mousemove
deriving DecidableEq

/-- A client mouse message: `eventType`, coordinates. -/
structure MouseEvent where
  eventType : MouseEventType
  x : Int
  y : Int

/-- Calls the input translator issues against the Playwright page
(the Browser Session capability). -/
inductive BrowserAction where
  | mouseMove (x y : Int)
  | mouseClick (x y : Int)
  | mouseDownBtn
  | mouseUpBtn
  | sleepMs (ms : Nat)
  | bringToFront
  | keyPress (k : String)
  | typeText (s : String)
  | reportUnhandled (k : String)
  | pageReload
  | pageGoto (url : String)
  | wheel (dx dy : Int)
deriving DecidableEq

/-- `src/app.py` lines 57-87, `handle_mouse_event`: given the session's
current `mouse_down` flag and the event, returns the updated flag and the
sequence of page calls issued.  The state update (lines 64-68) happens before
dispatch; `page.mouse.move(x, y)` at line 71 is unconditional; the
`mousemove` branch (line 86) re-reads the already-updated flag. -/
def handle_mouse_event (mouse_down : Bool) (e : MouseEvent) :
    Bool × List BrowserAction :=
  let md : Bool :=
    match e.eventType with
    | .mousedown => true
    | .mouseup => false
    | .dblclick => false
    | .mousemove => mouse_down
  let dispatch : List BrowserAction :=
    match e.eventType with
    | .mousedown => [BrowserAction.mouseClick e.x e.y]
    | .mouseup => [BrowserAction.mouseUpBtn]
    | .dblclick => [BrowserAction.mouseDownBtn, BrowserAction.mouseUpBtn,
                    BrowserAction.sleepMs 100,
                    BrowserAction.mouseDownBtn, BrowserAction.mouseUpBtn]
    | .mousemove => if md then [BrowserAction.mouseMove e.x e.y] else []
  (md, BrowserAction.mouseMove e.x e.y :: dispatch)

/-- Fold of `handle_mouse_event` over a sequence of mouse events, tracking
only the session's `mouse_down` flag. -/
def run_mouse_events (mouse_down : Bool) (es : List MouseEvent) : Bool :=
  es.foldl (fun m e => (handle_mouse_event m e).fst) mouse_down

/-- Spec-side helper for claim C1: the event type of the most recent
down-class or up-class event (anything but `mousemove`) in the sequence,
if one exists. -/
def lastDownClass : List MouseEvent → Option MouseEventType
  | [] => none
  | e :: es =>
    match lastDownClass es with
    | some t => some t
    | none =>
      match e.eventType with
      | .mousemove => none
      | t => some t

/-- `src/app.py` lines 112-126: the `special_keys` mapping of
`handle_keyboard_event`. -/
def special_keys : List (String × String) :=
  [("Backspace", "Backspace"), ("Enter", "Enter"), ("Tab", "Tab"),
   ("Escape", "Escape"), ("ArrowLeft", "ArrowLeft"),
   ("ArrowRight", "ArrowRight"), ("ArrowUp", "ArrowUp"),
   ("ArrowDown", "ArrowDown"), ("Delete", "Delete"), ("Home", "Home"),
   ("End", "End"), ("PageUp", "PageUp"), ("PageDown", "PageDown")]

/-- `src/app.py` lines 91-140, `handle_keyboard_event`: page calls issued for
a keyboard message.  `page.bring_to_front()` is unconditional; on `keydown`
the key is looked up in `special_keys`, else typed when a single character,
else `F5` triggers `page.reload()`, else reported unhandled; `keyup` is a
no-op. -/
def handle_keyboard_event (eventType key : String) : List BrowserAction :=
  let front := [BrowserAction.bringToFront]
  if eventType = "keydown" then
    match special_keys.lookup key with
    | some mapped => front ++ [BrowserAction.keyPress mapped]
    | none =>
      if key.length = 1 then front ++ [BrowserAction.typeText key]
      else if key = "F5" then front ++ [BrowserAction.pageReload]
      else front ++ [BrowserAction.reportUnhandled key]
  else front

/-- `src/app.py` lines 150-153, `handle_navigation_event`: issues
`page.goto(url)` on the URL exactly as received. -/
def handle_navigation_event (url : String) : List BrowserAction :=
  [BrowserAction.pageGoto url]

/-- `src/app.py` lines 183-189: the change-detection decision of one
`send_screenshots` iteration.  The captured frame's base64 string is
compared against `last_screenshot` (initially `None`, which compares
unequal to every string); on a difference the frame is sent and recorded.
Returns (sent?, new `last_screenshot`). -/
def screenshot_step (last : Option String) (b64 : String) :
    Bool × Option String :=
  if some b64 = last then (false, last) else (true, some b64)

/-- `src/app.py` lines 176-195: the frames sent by the `send_screenshots`
loop, given the base64 strings of the captured frames in order and the
starting `last_screenshot`. -/
def send_screenshots_loop : Option String → List String → List String
  | _, [] => []
  | last, b64 :: rest =>
    if some b64 = last then send_screenshots_loop last rest
    else b64 :: send_screenshots_loop (some b64) rest

/-- `src/app.py` lines 167-195: the full per-session transcript of
screenshot frames sent to the client — the initial screenshot (lines
168-173, sent unconditionally and not recorded into `last_screenshot`,
which stays `None`) followed by the loop's sends. -/
def session_sent_frames (first : String) (captures : List String) :
    List String :=
  first :: send_screenshots_loop none captures

/-- Outcome of `page.screenshot` in `send_screenshots`: the base64 payload,
or a raised exception. -/
inductive AppCapture where
  | ok (b64 : String)
  | failure (msg : String)

/-- `src/app.py` lines 177-195: one iteration of `send_screenshots` —
on a successful capture, the change-detection send; on any exception the
handler prints and executes `break`.  Returns the updated `last_screenshot`
and whether the loop continues. -/
def send_screenshots_iter (last : Option String) (r : AppCapture) :
    Option String × Bool :=
  match r with
  | .ok b64 => (if some b64 = last then last else some b64, true)
  | .failure _ => (last, false)

/-- `src/app.py` line 192: the sleep ending each `send_screenshots`
iteration — a fixed `asyncio.sleep(0.001)` seconds, independent of how long
the iteration took; the adjacent comment declares a ~15 fps target. -/
def send_screenshots_sleep (_elapsed : ℚ) : ℚ := 1 / 1000

/-- `src/request_listen.py` line 70: the sleep ending each
`BrowserTrack.capture_frames` iteration — a fixed `asyncio.sleep(0.03)`
seconds, independent of the iteration's elapsed time. -/
def capture_frames_sleep (_elapsed : ℚ) : ℚ := 3 / 100

/-- The pacing rule the specification states for the capture loop:
sleep `max(0, targetInterval - elapsed)`. -/
def claimed_sleep (targetInterval elapsed : ℚ) : ℚ :=
  max 0 (targetInterval - elapsed)

/-- An image array: width, height, channel count, and any text drawn
onto it. -/
structure Img where
  width : Nat
  height : Nat
  channels : Nat
  overlay : Option String
deriving DecidableEq

/-- `np.zeros((720, 1280, 3), np.uint8)`: a blank black 1280x720 3-channel
frame. -/
def blank_720p : Img := ⟨1280, 720, 3, none⟩

/-- `cv2.putText(img, text, ...)`: draws `text` onto the image. -/
def cv2_putText (img : Img) (text : String) : Img :=
  { img with overlay := some text }

/-- `cv2.cvtColor(frame, cv2.COLOR_RGBA2RGB)`: 4-channel to 3-channel. -/
def cv2_cvtColor_RGBA2RGB (img : Img) : Img := { img with channels := 3 }

/-- `cv2.resize(frame, (1280, 720))`: rescales to width 1280, height 720,
preserving the channel count. -/
def cv2_resize_720p (img : Img) : Img :=
  { img with width := 1280, height := 720 }

/-- Outcome of `self.page.screenshot` plus decoding in `capture_frames`:
a decoded image array, or a raised exception. -/
inductive TrackCapture where
  | ok (img : Img)
  | failure (msg : String)

/-- `src/request_listen.py` lines 57-70: one iteration of
`BrowserTrack.capture_frames`.  On success the image is converted to
3 channels when 4-channel and resized to 1280x720; on any exception the
handler prints and substitutes a black 720p frame with a "Capture Error"
overlay.  Both paths fall through to the sleep, so the second component
(loop continues) is `true` on both. -/
def capture_frames_iter (r : TrackCapture) : Img × Bool :=
  match r with
  | .ok img =>
    let img' := if img.channels = 4 then cv2_cvtColor_RGBA2RGB img else img
    (cv2_resize_720p img', true)
  | .failure _ => (cv2_putText blank_720p "Capture Error", true)

/-- `self.frame` after `capture_frames` has processed a list of capture
outcomes, starting from the constructor's initial `self.frame = None`. -/
def run_capture_frames : Option Img → List TrackCapture → Option Img
  | st, [] => st
  | _, r :: rs => run_capture_frames (some (capture_frames_iter r).fst) rs

/-- `src/request_listen.py` lines 72-79, `BrowserTrack.recv`: returns a copy
of `self.frame`, or a blank 1280x720 3-channel frame when no capture has
completed yet (`self.frame is None`). -/
def recv_frame : Option Img → Img
  | some f => f
  | none => blank_720p

/-- The fixed negotiated output resolution: 1280x720, 3 channels. -/
def fixed_resolution (f : Img) : Prop :=
  f.width = 1280 ∧ f.height = 720 ∧ f.channels = 3

end RemoteBrowser

namespace RemoteBrowser

/-- Characterization of the mouse state machine: after any event sequence the
flag is `true` exactly when the most recent non-move event was `mousedown`,
and is the initial flag when the sequence has no such event. -/
theorem run_mouse_events_eq (es : List MouseEvent) : ∀ md : Bool,
    run_mouse_events md es =
      match lastDownClass es with
      | some MouseEventType.mousedown => true
      | some _ => false
      | none => md := by
  induction es with
  | nil => intro md; rfl
  | cons e es ih =>
    intro md
    have hstep : run_mouse_events md (e :: es) =
        run_mouse_events (handle_mouse_event md e).fst es := rfl
    rw [hstep, ih]
    rcases he : e.eventType <;>
      simp only [lastDownClass, handle_mouse_event, he] <;>
      rcases hl : lastDownClass es with _ | t <;> simp only [] <;>
      first
        | rfl
        | (cases t <;> rfl)

/-- Claim C4: the signaling handler accepts an inbound offer payload and
proceeds to answer generation iff the payload is a mapping containing both an
`sdp` key whose value is non-null and a `type` key whose value equals
`"offer"`; any other payload is rejected as malformed, fatal to that
connection. -/
theorem offer_accepted_iff (offer : Json) :
    validate_offer offer = Except.ok () ↔
      ∃ fields, offer = Json.obj fields ∧
        (∃ sdp, fields.lookup "sdp" = some sdp ∧ sdp ≠ Json.null) ∧
        fields.lookup "type" = some (Json.str "offer") := by
  cases offer with
  | obj fields =>
    simp only [validate_offer]
    rcases hs : fields.lookup "sdp" with _ | sdp <;>
      rcases ht : fields.lookup "type" with _ | ty
    · simp [hs]
    · simp [hs]
    · simp [hs, ht]
    · cases sdp <;> cases ty <;> simp_all
  | null => simp [validate_offer]
  | str s => simp [validate_offer]
  | num n => simp [validate_offer]
  | bool b => simp [validate_offer]
  | arr xs => simp [validate_offer]

/-- Claim C1: for every sequence of pointer events, the session's
`mouse_down` flag ends `true` iff the most recent down-class or up-class
event was `mousedown`; `mouseup` and `dblclick` each leave the flag `false`,
and `mousemove` leaves it unchanged. -/
theorem mouse_down_state_machine (es : List MouseEvent) (md : Bool)
    (x y : Int) :
    (run_mouse_events false es = true ↔
      lastDownClass es = some MouseEventType.mousedown)
    ∧ (handle_mouse_event md ⟨MouseEventType.mouseup, x, y⟩).fst = false
    ∧ (handle_mouse_event md ⟨MouseEventType.dblclick, x, y⟩).fst = false
    ∧ (handle_mouse_event md ⟨MouseEventType.mousemove, x, y⟩).fst = md := by
  refine ⟨?_, rfl, rfl, rfl⟩
  rw [run_mouse_events_eq]
  rcases lastDownClass es with _ | t
  · simp
  · cases t <;> simp

/-- Claim C7, counterexample: a pointer-move processed with
`mouse_down = false` is not a no-op on the Browser Session — the handler
still issues `page.mouse.move(x, y)` (the unconditional move at
`src/app.py` line 71). -/
theorem mousemove_up_not_noop :
    (handle_mouse_event false ⟨MouseEventType.mousemove, 5, 7⟩).snd ≠ [] := by
  simp [handle_mouse_event]

/-- Claim C7, amended: a pointer-move processed with `mouse_down = false`
issues exactly one pointer move to `(x, y)` — the unconditional initial move
— and no click, button-down or button-up dispatch, and leaves the session's
`mouse_down` flag unchanged (`false`). -/
theorem mousemove_up_single_move (x y : Int) :
    handle_mouse_event false ⟨MouseEventType.mousemove, x, y⟩ =
      (false, [BrowserAction.mouseMove x y]) := rfl

/-- Claim C8, counterexample: for the navigation event with URL
`"example.com"` the handler issues `page.goto("example.com")` — it does not
navigate to `"https://example.com"`, and no scheme is auto-prepended. -/
theorem navigation_no_scheme_prepend :
    handle_navigation_event "example.com" =
        [BrowserAction.pageGoto "example.com"]
    ∧ BrowserAction.pageGoto "https://example.com" ∉
        handle_navigation_event "example.com" := by
  refine ⟨rfl, ?_⟩
  simp [handle_navigation_event]

/-- Claim C8, amended: for every navigation event the Input Translator loads
exactly the URL carried by the event, with no scheme auto-prepended
(scheme-less URLs are passed through unchanged). -/
theorem navigation_passes_url_through (url : String) :
    handle_navigation_event url = [BrowserAction.pageGoto url] := rfl

/-- Claim C10: a key-down event whose key is `"F5"` triggers a full page
reload (`page.reload()`), not a key press, not typed text, and not an
unhandled-key report. -/
theorem f5_triggers_reload :
    handle_keyboard_event "keydown" "F5" =
        [BrowserAction.bringToFront, BrowserAction.pageReload]
    ∧ BrowserAction.pageReload ∈ handle_keyboard_event "keydown" "F5"
    ∧ ∀ k s, BrowserAction.keyPress k ∉ handle_keyboard_event "keydown" "F5"
        ∧ BrowserAction.typeText s ∉ handle_keyboard_event "keydown" "F5"
        ∧ BrowserAction.reportUnhandled k ∉
            handle_keyboard_event "keydown" "F5" := by
  have h : handle_keyboard_event "keydown" "F5" =
      [BrowserAction.bringToFront, BrowserAction.pageReload] := rfl
  exact ⟨h, by simp [h], fun k s => ⟨by simp [h], by simp [h], by simp [h]⟩⟩

/-- Claim C5: a post-answer signaling message whose `candidate` value is
null, is not a mapping, or lacks the `candidate` or `sdpMid` sub-field is
discarded — the set of added candidates is unchanged and the receive loop
continues; a candidate mapping with both sub-fields is accepted and added to
the peer connection, with `sdpMLineIndex` optional. -/
theorem candidate_validation (added : List CandidateInit)
    (fields : List (String × Json)) (cd : Json)
    (hcd : fields.lookup "candidate" = some cd) :
    ((cd = Json.null
        ∨ (∀ cf, cd ≠ Json.obj cf)
        ∨ (∃ cf, cd = Json.obj cf ∧
            (cf.lookup "candidate" = none ∨ cf.lookup "sdpMid" = none))) →
      handle_candidate_message added fields = (added, true))
    ∧ (∀ cf c m, cd = Json.obj cf →
        cf.lookup "candidate" = some c → cf.lookup "sdpMid" = some m →
        handle_candidate_message added fields =
          (added ++ [⟨c, m, cf.lookup "sdpMLineIndex"⟩], true)) := by
  constructor
  · rintro (rfl | hno | ⟨cf, rfl, hmiss⟩)
    · simp only [handle_candidate_message, hcd]
    · cases cd with
      | obj cf => exact absurd rfl (hno cf)
      | null => simp only [handle_candidate_message, hcd]
      | str s => simp only [handle_candidate_message, hcd]
      | num n => simp only [handle_candidate_message, hcd]
      | bool b => simp only [handle_candidate_message, hcd]
      | arr xs => simp only [handle_candidate_message, hcd]
    · rcases hc : cf.lookup "candidate" with _ | c <;>
        rcases hm : cf.lookup "sdpMid" with _ | m
      · simp only [handle_candidate_message, hcd, hc, hm]
      · simp only [handle_candidate_message, hcd, hc, hm]
      · simp only [handle_candidate_message, hcd, hc, hm]
      · rcases hmiss with h | h
        · rw [hc] at h; exact Option.noConfusion h
        · rw [hm] at h; exact Option.noConfusion h
  · rintro cf c m rfl hc hm
    simp only [handle_candidate_message, hcd, hc, hm]

/-- Concrete instance of claim C5: the message `{"candidate": null}` is
discarded without changing the candidate set and the loop continues. -/
theorem candidate_validation_witness :
    handle_candidate_message [] [("candidate", Json.null)] = ([], true) :=
  (candidate_validation [] [("candidate", Json.null)] Json.null rfl).1
    (Or.inl rfl)

/-- Invariant of `send_screenshots_loop`: its output has no two consecutive
equal frames, and its first output frame differs from the starting
`last_screenshot`. -/
theorem send_screenshots_loop_chain (captures : List String) :
    ∀ last : Option String,
      List.Chain' (fun p q : String => p ≠ q)
        (send_screenshots_loop last captures)
      ∧ ∀ g, (send_screenshots_loop last captures).head? = some g →
          some g ≠ last := by
  induction captures with
  | nil =>
    intro last
    exact ⟨List.chain'_nil, fun g h => by simp [send_screenshots_loop] at h⟩
  | cons b rest ih =>
    intro last
    by_cases hb : some b = last
    · simpa [send_screenshots_loop, hb] using ih last
    · simp only [send_screenshots_loop, if_neg hb]
      refine ⟨?_, ?_⟩
      · rw [List.chain'_cons']
        refine ⟨?_, (ih (some b)).1⟩
        intro q hq
        have hne := (ih (some b)).2 q hq
        intro hbq
        exact hne (by rw [hbq])
      · intro g hg
        have : b = g := by simpa using hg
        rw [← this]
        exact hb

/-- Claim C2, counterexample: with the initial screenshot `"a"` (sent
unconditionally before the loop and not recorded into `last_screenshot`)
and the loop's first capture also `"a"`, the loop compares `"a"` against
`None`, finds a difference, and sends it again — the client receives
`["a", "a"]`, two consecutive identical frames. -/
theorem initial_frame_duplicate_sent :
    session_sent_frames "a" ["a"] = ["a", "a"]
    ∧ ¬ List.Chain' (fun p q : String => p ≠ q)
        (session_sent_frames "a" ["a"]) := by
  refine ⟨rfl, ?_⟩
  intro h
  have h2 : List.Chain' (fun p q : String => p ≠ q) ["a", "a"] := h
  rw [List.chain'_cons] at h2
  exact h2.1 rfl

/-- Claim C2, amended: within the `send_screenshots` loop no two
consecutively sent frames are identical, the loop's first captured frame is
always sent, and a captured frame is sent iff its fingerprint differs from
the recorded `last_screenshot`; the session transcript always begins with
the initial screenshot, but because that initial send is not recorded, only
the frames sent by the loop itself are guaranteed pairwise consecutively
distinct. -/
theorem loop_change_detection (first b64 : String) (last : Option String)
    (captures rest : List String) :
    List.Chain' (fun p q : String => p ≠ q)
      (send_screenshots_loop none captures)
    ∧ (send_screenshots_loop none (b64 :: rest)).head? = some b64
    ∧ ((screenshot_step last b64).fst = true ↔ some b64 ≠ last)
    ∧ (session_sent_frames first captures).head? = some first := by
  refine ⟨(send_screenshots_loop_chain captures none).1, ?_, ?_, rfl⟩
  · simp [send_screenshots_loop]
  · by_cases h : some b64 = last <;> simp [screenshot_step, h]

/-- Claim C3: evaluation of the loops' pacing at the failing input.  With a
capture completing instantly (`elapsed = 0`) against the declared ~15 fps
target (interval `1/15` s), `send_screenshots` sleeps its fixed `0.001` s
rather than `max(0, 1/15 - 0) = 1/15` s; `capture_frames` sleeps its fixed
`0.03` s even when the iteration already consumed `0.01` s, rather than
`max(0, 0.03 - 0.01) = 0.02` s.  Neither loop derives its sleep from the
elapsed time, so neither is paced to at most one capture per target
interval. -/
theorem fixed_sleep_ne_claimed :
    send_screenshots_sleep 0 = 1 / 1000
    ∧ send_screenshots_sleep 0 ≠ claimed_sleep (1 / 15) 0
    ∧ capture_frames_sleep (1 / 100) = 3 / 100
    ∧ capture_frames_sleep (1 / 100) ≠ claimed_sleep (3 / 100) (1 / 100) := by
  have h15 : claimed_sleep (1 / 15) 0 = 1 / 15 := by
    rw [claimed_sleep, sub_zero, max_eq_right (by norm_num : (0 : ℚ) ≤ 1 / 15)]
  have h2 : claimed_sleep (3 / 100) (1 / 100) = 2 / 100 := by
    rw [claimed_sleep]
    rw [show (3 : ℚ) / 100 - 1 / 100 = 2 / 100 by norm_num]
    rw [max_eq_right (by norm_num : (0 : ℚ) ≤ 2 / 100)]
  refine ⟨rfl, ?_, rfl, ?_⟩
  · rw [h15, send_screenshots_sleep]; norm_num
  · rw [h2, capture_frames_sleep]; norm_num

/-- Claim C6, counterexample: in `send_screenshots` (`src/app.py`), the
`except` handler prints and executes `break`, so a single capture failure
terminates that session's frame loop. -/
theorem capture_failure_stops_polling_loop :
    (send_screenshots_iter none (AppCapture.failure "screenshot failed")).snd
      = false := rfl

/-- Claim C6, amended: in the media-track loop
(`BrowserTrack.capture_frames`) a capture failure is never fatal — the
handler logs, substitutes the "Capture Error" placeholder frame, and the
loop continues; in the polling loop (`send_screenshots`) any exception in an
iteration, including a capture failure, terminates that session's frame
loop. -/
theorem capture_failure_policy (msg : String) (last : Option String) :
    (capture_frames_iter (TrackCapture.failure msg)).snd = true
    ∧ (capture_frames_iter (TrackCapture.failure msg)).fst
        = cv2_putText blank_720p "Capture Error"
    ∧ (send_screenshots_iter last (AppCapture.failure msg)).snd = false :=
  ⟨rfl, rfl, rfl⟩

/-- One `capture_frames` iteration always stores a frame of the fixed
resolution, provided a successful capture decodes to a 3- or 4-channel
image. -/
theorem capture_frames_iter_resolution (r : TrackCapture)
    (h : ∀ img, r = TrackCapture.ok img →
        img.channels = 3 ∨ img.channels = 4) :
    fixed_resolution (capture_frames_iter r).fst := by
  cases r with
  | failure msg => exact ⟨rfl, rfl, rfl⟩
  | ok img =>
    rcases h img rfl with h3 | h4
    · have : ¬ img.channels = 4 := by rw [h3]; decide
      simp [capture_frames_iter, cv2_resize_720p, fixed_resolution, this, h3]
    · simp [capture_frames_iter, cv2_resize_720p, cv2_cvtColor_RGBA2RGB,
        fixed_resolution, h4]

/-- After any nonempty run of `capture_frames`, `self.frame` is the frame
produced by the last iteration. -/
theorem run_capture_frames_append (rs : List TrackCapture)
    (r : TrackCapture) :
    ∀ st, run_capture_frames st (rs ++ [r]) =
      some (capture_frames_iter r).fst := by
  induction rs with
  | nil => intro st; rfl
  | cons a as ih => intro st; exact ih _

/-- Any frame stored by a run of `capture_frames` has the fixed resolution,
provided every successful capture decodes to a 3- or 4-channel image and the
starting frame (if any) already has it. -/
theorem run_capture_frames_resolution (rs : List TrackCapture)
    (h : ∀ img, TrackCapture.ok img ∈ rs →
        img.channels = 3 ∨ img.channels = 4) :
    ∀ st : Option Img, (∀ f, st = some f → fixed_resolution f) →
      fixed_resolution (recv_frame (run_capture_frames st rs)) := by
  induction rs with
  | nil =>
    intro st hst
    cases st with
    | none => exact ⟨rfl, rfl, rfl⟩
    | some f => exact hst f rfl
  | cons r rest ih =>
    intro st hst
    show fixed_resolution (recv_frame
      (run_capture_frames (some (capture_frames_iter r).fst) rest))
    refine ih (fun img hm => h img (List.mem_cons_of_mem _ hm)) _ ?_
    intro f hf
    have hr : fixed_resolution (capture_frames_iter r).fst :=
      capture_frames_iter_resolution r
        (fun img heq => h img (by rw [heq]; exact List.mem_cons_self _ _))
    injection hf with hf
    rw [← hf]
    exact hr

/-- Claim C9: every `recv` call returns a frame of the fixed negotiated
resolution (1280x720, 3 channels) provided each successful capture decodes
to a 3- or 4-channel image; when no capture has completed yet `recv`
returns the blank frame of that resolution; when the most recent capture
failed `recv` returns the solid placeholder carrying the "Capture Error"
marker; and every successfully captured frame is resized to that resolution
regardless of its source size. -/
theorem recv_fixed_resolution (rs : List TrackCapture)
    (h : ∀ img, TrackCapture.ok img ∈ rs →
        img.channels = 3 ∨ img.channels = 4) :
    fixed_resolution (recv_frame (run_capture_frames none rs))
    ∧ (rs = [] → recv_frame (run_capture_frames none rs) = blank_720p)
    ∧ (∀ rs' msg, rs = rs' ++ [TrackCapture.failure msg] →
        recv_frame (run_capture_frames none rs)
          = cv2_putText blank_720p "Capture Error")
    ∧ (∀ img, img.channels = 3 ∨ img.channels = 4 →
        fixed_resolution
          (capture_frames_iter (TrackCapture.ok img)).fst) := by
  refine ⟨?_, ?_, ?_, ?_⟩
  · exact run_capture_frames_resolution rs h none
      (fun f hf => Option.noConfusion hf)
  · rintro rfl; rfl
  · rintro rs' msg rfl
    rw [run_capture_frames_append]
    rfl
  · intro img himg
    exact capture_frames_iter_resolution (TrackCapture.ok img)
      (fun img' heq => by injection heq with heq; rw [← heq]; exact himg)

/-- Concrete instance of claim C9: after a single failed capture, `recv`
returns a frame of the fixed 1280x720 3-channel resolution. -/
theorem recv_fixed_resolution_witness :
    fixed_resolution (recv_frame (run_capture_frames none
      [TrackCapture.failure "net"])) :=
  (recv_fixed_resolution [TrackCapture.failure "net"]
    (fun img hm => by simp at hm)).1

end RemoteBrowser
